import Mathlib

/-!
Verification of the three scripts in `hack/python/`:
`blinka_check.py` (USB device prober), `blinka_blink.py` (GPIO toggler)
and `lps25.py` (pressure-sensor poller), via a shallow embedding.

The prober is modelled as a pure function from the enumeration result
(a list of device records) and the outcome of the single `device.open`
call to the process observables: the stdout lines, the stderr lines,
the exit code, and the list of open calls made (with their arguments).
The toggler is modelled as the event trace its loop produces, and the
poller as the list of lines it prints, parameterised by the wall-clock
and sensor-reading streams.
-/

/-- A USB device record as returned by `hid.enumerate()`: the script reads
only the `vendor_id` and `product_id` fields, so only those are modelled. -/
structure DeviceInfo where
  vendor_id : Nat
  product_id : Nat
deriving DecidableEq

/-- `ADAFRUIT_VENDOR_ID = 0x04D8` from `blinka_check.py` line 6. -/
def ADAFRUIT_VENDOR_ID : Nat := 0x04D8

/-- Outcome of the single `device.open(ADAFRUIT_VENDOR_ID, 0x00DD)` call:
it either returns, raises an `OSError` (the class the script catches), or
raises some other exception, which propagates out of the `try` block. -/
inductive OpenResult where
  | ok
  | osError (msg : String)
  | otherError (exnName msg : String)
deriving DecidableEq

/-- The text of the exception raised by `device.open`, when it raised one
(`str(e)` in Python). -/
def OpenResult.failureText : OpenResult → Option String
  | .ok => none
  | .osError msg => some msg
  | .otherError _ msg => some msg

/-- Observables of one run of `blinka_check.py`: the lines printed to
stdout and stderr, the exit status, and the `(vendor_id, product_id)`
arguments of each `device.open` call that was made. -/
structure ProcResult where
  stdout : List String
  stderr : List String
  exitCode : Nat
  openCalls : List (Nat × Nat)
deriving DecidableEq

/-- The line printed for each enumerated record whose vendor id matches:
`f"OK: Found Adafruit device with product ID {device['product_id']}!"`. -/
def foundLine (pid : Nat) : String :=
  "OK: Found Adafruit device with product ID " ++ Nat.repr pid ++ "!"

/-- Shallow embedding of `blinka_check.py`.  The enumeration loop prints
`foundLine` for every matching record (`filter` + `map`) and sets
`foundDevice` iff some record matches (`any`).  If no record matched, the
script prints the error line and exits 1 before `hid.device()` is even
constructed, so no open call is made.  Otherwise it calls
`device.open(ADAFRUIT_VENDOR_ID, 0x00DD)` once: on success it prints the
success line and `"Done."` and falls off the end of the script (exit 0);
on `OSError` it prints `f"Failed to open device: {e}"` and exits 1; on
any other exception the exception escapes the `try` block, and CPython's
default handler prints a traceback ending in `"<ExnClass>: <msg>"` to
stderr and exits with status 1. -/
def blinka_check (devices : List DeviceInfo) (openRes : OpenResult) : ProcResult :=
  let banner := "Probing for Adafruit USB devices…"
  let enumLines :=
    (devices.filter (fun d => d.vendor_id == ADAFRUIT_VENDOR_ID)).map
      (fun d => foundLine d.product_id)
  let foundDevice := devices.any (fun d => d.vendor_id == ADAFRUIT_VENDOR_ID)
  if foundDevice = false then
    { stdout := banner :: enumLines ++ ["Error: could not find Adafruit device(s)."]
      stderr := []
      exitCode := 1
      openCalls := [] }
  else
    match openRes with
    | .ok =>
      { stdout := banner :: enumLines ++ ["OK: Successfully opened device.", "Done."]
        stderr := []
        exitCode := 0
        openCalls := [(ADAFRUIT_VENDOR_ID, 0x00DD)] }
    | .osError msg =>
      { stdout := banner :: enumLines ++ ["Failed to open device: " ++ msg]
        stderr := []
        exitCode := 1
        openCalls := [(ADAFRUIT_VENDOR_ID, 0x00DD)] }
    | .otherError exnName msg =>
      { stdout := banner :: enumLines
        stderr := ["Traceback (most recent call last):", exnName ++ ": " ++ msg]
        exitCode := 1
        openCalls := [(ADAFRUIT_VENDOR_ID, 0x00DD)] }

/-- Boolean list-prefix test, used to recognise the family of
"Found Adafruit device" lines among the printed output. -/
def listIsPre : List Char → List Char → Bool
  | [], _ => true
  | _ :: _, [] => false
  | a :: as, b :: bs => a = b && listIsPre as bs

/-- A printed line is a "Found Adafruit device" line iff it starts with
that marker text. -/
def hasFoundMarker (line : String) : Bool :=
  listIsPre "OK: Found Adafruit device".data line.data

/-- A string `msg` occurs inside `line` (as a contiguous substring). -/
def strContains (line msg : String) : Prop :=
  ∃ a b, line = a ++ msg ++ b

/-- One observable step of `blinka_blink.py`: a `print`, a write to
`led.value`, or a `time.sleep` of a whole number of seconds. -/
inductive BlinkEvent where
  | print (s : String)
  | setPin (b : Bool)
  | sleep (seconds : Nat)
deriving DecidableEq

/-- The six statements of one iteration of the `while True:` loop of
`blinka_blink.py`, in program order. -/
def blinkIter : List BlinkEvent :=
  [BlinkEvent.print "on...", BlinkEvent.setPin true, BlinkEvent.sleep 5,
   BlinkEvent.print "off...", BlinkEvent.setPin false, BlinkEvent.sleep 1]

/-- The event trace of the first `n` complete iterations of the loop. -/
def blinkTrace : Nat → List BlinkEvent
  | 0 => []
  | n + 1 => blinkTrace n ++ blinkIter

/-- The labels printed along a trace, in order. -/
def printedLabels (tr : List BlinkEvent) : List String :=
  tr.filterMap fun e =>
    match e with
    | BlinkEvent.print s => some s
    | _ => none

/-- The strictly alternating label sequence `"on...", "off...", ...` of
length `m`, starting with `"on..."`. -/
def altLabels (m : Nat) : List String :=
  (List.range m).map fun j => if j % 2 = 0 then "on..." else "off..."

/-- A wall-clock instant as `datetime.datetime.now()` returns it, with the
fields that the format string `"%Y-%m-%dT%H:%M:%S.%f"` reads. -/
structure DateTime where
  year : Nat
  month : Nat
  day : Nat
  hour : Nat
  minute : Nat
  second : Nat
  microsecond : Nat
deriving DecidableEq

/-- Field ranges of a `datetime.datetime` value (the year bounds are the
ones needed for the four-digit `%Y` field; CPython years are `1..9999`
and real wall clocks are past year 1000). -/
def DateTime.Valid (t : DateTime) : Prop :=
  1000 ≤ t.year ∧ t.year < 10000 ∧ 1 ≤ t.month ∧ t.month ≤ 12 ∧
  1 ≤ t.day ∧ t.day ≤ 31 ∧ t.hour < 24 ∧ t.minute < 60 ∧
  t.second < 60 ∧ t.microsecond < 1000000

instance (t : DateTime) : Decidable t.Valid := by
  unfold DateTime.Valid
  infer_instance

/-- Chronological order on wall-clock instants: lexicographic on the
fields, most significant first. -/
def DateTime.le (t u : DateTime) : Prop :=
  t.year < u.year ∨ (t.year = u.year ∧
    (t.month < u.month ∨ (t.month = u.month ∧
      (t.day < u.day ∨ (t.day = u.day ∧
        (t.hour < u.hour ∨ (t.hour = u.hour ∧
          (t.minute < u.minute ∨ (t.minute = u.minute ∧
            (t.second < u.second ∨ (t.second = u.second ∧
              t.microsecond ≤ u.microsecond)))))))))))

instance (t u : DateTime) : Decidable (DateTime.le t u) := by
  unfold DateTime.le
  infer_instance

/-- The decimal digit character for `d` (`0 ≤ d ≤ 9`). -/
def digitChar : Nat → Char
  | 0 => '0'
  | 1 => '1'
  | 2 => '2'
  | 3 => '3'
  | 4 => '4'
  | 5 => '5'
  | 6 => '6'
  | 7 => '7'
  | 8 => '8'
  | 9 => '9'
  | _ => '*'

/-- The last `w` decimal digits of `n`, zero-padded on the left to width
exactly `w` — this is what a zero-padded `strftime` field (`%Y` width 4,
`%m`/`%d`/`%H`/`%M`/`%S` width 2, `%f` width 6) prints when the value
fits in the field. -/
def dig : Nat → Nat → List Char
  | 0, _ => []
  | w + 1, n => dig w (n / 10) ++ [digitChar (n % 10)]

/-- `strftime("%Y-%m-%dT%H:%M:%S.%f")` on a `DateTime`. -/
def formatTs (t : DateTime) : String :=
  String.mk (dig 4 t.year ++ ('-' :: (dig 2 t.month ++ ('-' :: (dig 2 t.day ++
    ('T' :: (dig 2 t.hour ++ (':' :: (dig 2 t.minute ++ (':' :: (dig 2 t.second ++
    ('.' :: dig 6 t.microsecond))))))))))))

/-- Shallow embedding of `lps25.py`, parameterised by the wall-clock
stream `clk` (the value `datetime.datetime.now()` returns on iteration
`i`) and the sensor-reading stream `press` (the string `str` produces
for `lps.pressure` on iteration `i`): the lines printed by the header
statement and the first `n` loop iterations, in order. -/
def lps25Lines (clk : Nat → DateTime) (press : Nat → String) (n : Nat) : List String :=
  "time;pressure" :: (List.range n).map fun i => formatTs (clk i) ++ ";" ++ press i

/-- A decimal digit character. -/
def isDigitCh (c : Char) : Bool :=
  '0' ≤ c && c ≤ '9'

/-- All characters of the list are decimal digits. -/
def allDigits (l : List Char) : Bool :=
  l.all isDigitCh

/-- Shape of an ISO-like timestamp with microsecond precision:
`DDDD-DD-DDTDD:DD:DD.DDDDDD` where every `D` is a decimal digit. -/
def tsShape : List Char → Bool
  | y1 :: y2 :: y3 :: y4 :: c1 :: m1 :: m2 :: c2 :: d1 :: d2 :: c3 ::
      h1 :: h2 :: c4 :: n1 :: n2 :: c5 :: s1 :: s2 :: c6 ::
      u1 :: u2 :: u3 :: u4 :: u5 :: u6 :: [] =>
    allDigits [y1, y2, y3, y4, m1, m2, d1, d2, h1, h2, n1, n2, s1, s2,
      u1, u2, u3, u4, u5, u6] &&
    (c1 = '-' && c2 = '-' && c3 = 'T' && c4 = ':' && c5 = ':' && c6 = '.')
  | _ => false

/-- A string is a microsecond-precision timestamp. -/
def isTimestampStr (s : String) : Bool :=
  tsShape s.data

/-- A plausible printed numeric reading: non-empty, only digits, a
decimal point, a sign or an exponent mark. -/
def isNumericStr (s : String) : Bool :=
  !s.data.isEmpty &&
    s.data.all fun c => isDigitCh c || c = '.' || c = '-' || c = '+' || c = 'e'

/-- The claim's pattern for a data line:
`<timestamp>;<floating-point-or-numeric>`. -/
def matchesDataLine (line : String) : Prop :=
  ∃ ts v, line = ts ++ ";" ++ v ∧ isTimestampStr ts = true ∧ isNumericStr v = true

/-- Lexicographic `≤` on character lists (by code point). -/
def lexLE : List Char → List Char → Bool
  | [], _ => true
  | _ :: _, [] => false
  | a :: as, b :: bs => if a < b then true else if a = b then lexLE as bs else false

/-- Lexicographic `<` on character lists (by code point). -/
def lexLT : List Char → List Char → Bool
  | [], [] => false
  | [], _ :: _ => true
  | _ :: _, [] => false
  | a :: as, b :: bs => if a < b then true else if a = b then lexLT as bs else false

theorem listIsPre_append (l r : List Char) : listIsPre l (l ++ r) = true := by
  induction l with
  | nil => rfl
  | cons a as ih => simp [listIsPre, ih]

theorem string_append_data (s t : String) : (s ++ t).data = s.data ++ t.data := rfl

theorem string_append_empty (s : String) : s ++ "" = s := by
  cases s with
  | mk l =>
    show String.mk (l ++ []) = String.mk l
    rw [List.append_nil]

theorem hasFoundMarker_foundLine (pid : Nat) : hasFoundMarker (foundLine pid) = true := by
  have h : (foundLine pid).data =
      "OK: Found Adafruit device".data ++
        (" with product ID ".data ++ (Nat.repr pid ++ "!").data) := by
    show ("OK: Found Adafruit device with product ID " ++ (Nat.repr pid ++ "!")).data = _
    rw [string_append_data]
    have : "OK: Found Adafruit device with product ID ".data =
        "OK: Found Adafruit device".data ++ " with product ID ".data := by decide
    rw [this, List.append_assoc]
  unfold hasFoundMarker
  rw [h]
  exact listIsPre_append _ _

theorem countP_enumLines (devices : List DeviceInfo) :
    List.countP hasFoundMarker
      ((devices.filter (fun d => d.vendor_id == ADAFRUIT_VENDOR_ID)).map
        (fun d => foundLine d.product_id)) =
      devices.countP (fun d => d.vendor_id == ADAFRUIT_VENDOR_ID) := by
  rw [List.countP_map]
  have hall : ∀ a ∈ devices.filter (fun d => d.vendor_id == ADAFRUIT_VENDOR_ID),
      (hasFoundMarker ∘ fun d => foundLine d.product_id) a = true :=
    fun a _ => hasFoundMarker_foundLine a.product_id
  rw [List.countP_eq_length.mpr hall, List.countP_eq_length_filter]

/-- C1: if the enumeration contains at least one record with vendor id
`0x04D8` and the open call succeeds, the prober exits with status 0,
prints one "Found Adafruit device" line per matching record, and prints
the "Successfully opened device" line. -/
theorem blinka_check_success_path (devices : List DeviceInfo)
    (hfound : devices.any (fun d => d.vendor_id == ADAFRUIT_VENDOR_ID) = true) :
    (blinka_check devices OpenResult.ok).exitCode = 0 ∧
    (blinka_check devices OpenResult.ok).stdout.countP hasFoundMarker =
      devices.countP (fun d => d.vendor_id == ADAFRUIT_VENDOR_ID) ∧
    "OK: Successfully opened device." ∈ (blinka_check devices OpenResult.ok).stdout := by
  simp only [blinka_check, hfound]
  rw [if_neg (by decide : ¬(true = false))]
  refine ⟨rfl, ?_, by simp⟩
  dsimp only
  rw [List.countP_append, List.countP_cons, countP_enumLines]
  have h1 : hasFoundMarker "Probing for Adafruit USB devices…" = false := by decide
  have h2 : List.countP hasFoundMarker ["OK: Successfully opened device.", "Done."] = 0 := by
    decide
  rw [h1, h2]
  simp

/-- C1 witness: a concrete one-record enumeration with a matching vendor id. -/
theorem blinka_check_success_path_witness :
    (blinka_check [⟨0x04D8, 0x00DD⟩] OpenResult.ok).exitCode = 0 ∧
    (blinka_check [⟨0x04D8, 0x00DD⟩] OpenResult.ok).stdout.countP hasFoundMarker =
      ([⟨0x04D8, 0x00DD⟩] : List DeviceInfo).countP
        (fun d => d.vendor_id == ADAFRUIT_VENDOR_ID) ∧
    "OK: Successfully opened device." ∈
      (blinka_check [⟨0x04D8, 0x00DD⟩] OpenResult.ok).stdout :=
  blinka_check_success_path _ (by decide)

/-- C2: if no enumerated record has the target vendor id, the prober
prints the "could not find" message, exits with status 1 and makes no
open call. -/
theorem blinka_check_not_found (devices : List DeviceInfo) (openRes : OpenResult)
    (h : devices.any (fun d => d.vendor_id == ADAFRUIT_VENDOR_ID) = false) :
    "Error: could not find Adafruit device(s)." ∈ (blinka_check devices openRes).stdout ∧
    (blinka_check devices openRes).exitCode = 1 ∧
    (blinka_check devices openRes).openCalls = [] := by
  simp [blinka_check, h]

/-- C2 witness: the empty enumeration. -/
theorem blinka_check_not_found_witness :
    "Error: could not find Adafruit device(s)." ∈ (blinka_check [] OpenResult.ok).stdout ∧
    (blinka_check [] OpenResult.ok).exitCode = 1 ∧
    (blinka_check [] OpenResult.ok).openCalls = [] :=
  blinka_check_not_found [] OpenResult.ok (by decide)

/-- C3: whenever the open call raises any exception (with text `msg`),
the prober terminates with a non-zero exit code and some printed line
(stdout or stderr) contains `msg`.  For `OSError` the script's own
handler prints it to stdout; for any other exception class CPython's
default handler prints the traceback to stderr. -/
theorem blinka_check_open_failure_any (devices : List DeviceInfo) (openRes : OpenResult)
    (msg : String)
    (hfound : devices.any (fun d => d.vendor_id == ADAFRUIT_VENDOR_ID) = true)
    (hmsg : openRes.failureText = some msg) :
    (blinka_check devices openRes).exitCode ≠ 0 ∧
    ∃ line ∈ (blinka_check devices openRes).stdout ++ (blinka_check devices openRes).stderr,
      strContains line msg := by
  cases openRes with
  | ok => exact absurd hmsg (by simp [OpenResult.failureText])
  | osError m =>
    have hm : m = msg := by simpa [OpenResult.failureText] using hmsg
    subst hm
    simp only [blinka_check, hfound]
    rw [if_neg (by decide : ¬(true = false))]
    refine ⟨by simp, "Failed to open device: " ++ m, by simp, ?_⟩
    exact ⟨"Failed to open device: ", "", by rw [string_append_empty]⟩
  | otherError en m =>
    have hm : m = msg := by simpa [OpenResult.failureText] using hmsg
    subst hm
    simp only [blinka_check, hfound]
    rw [if_neg (by decide : ¬(true = false))]
    refine ⟨by simp, en ++ ": " ++ m, by simp, ?_⟩
    exact ⟨en ++ ": ", "", by rw [string_append_empty]⟩

/-- C3 witness: a matching enumeration and an open call raising a
non-`OSError` exception. -/
theorem blinka_check_open_failure_any_witness :
    (blinka_check [⟨0x04D8, 5⟩] (OpenResult.otherError "ValueError" "boom")).exitCode ≠ 0 ∧
    ∃ line ∈ (blinka_check [⟨0x04D8, 5⟩] (OpenResult.otherError "ValueError" "boom")).stdout ++
        (blinka_check [⟨0x04D8, 5⟩] (OpenResult.otherError "ValueError" "boom")).stderr,
      strContains line "boom" :=
  blinka_check_open_failure_any _ _ _ (by decide) rfl

/-- C4: with at least one vendor match, if the open call raises an
`OSError` with text `msg`, the prober prints the failure line containing
`msg` to stdout and exits with status 1. -/
theorem blinka_check_open_failure_os (devices : List DeviceInfo) (msg : String)
    (hfound : devices.any (fun d => d.vendor_id == ADAFRUIT_VENDOR_ID) = true) :
    ("Failed to open device: " ++ msg) ∈
      (blinka_check devices (OpenResult.osError msg)).stdout ∧
    strContains ("Failed to open device: " ++ msg) msg ∧
    (blinka_check devices (OpenResult.osError msg)).exitCode = 1 := by
  simp only [blinka_check, hfound]
  rw [if_neg (by decide : ¬(true = false))]
  refine ⟨by simp, ⟨"Failed to open device: ", "", by rw [string_append_empty]⟩, rfl⟩

/-- C4 witness. -/
theorem blinka_check_open_failure_os_witness :
    ("Failed to open device: " ++ "no such device") ∈
      (blinka_check [⟨0x04D8, 5⟩] (OpenResult.osError "no such device")).stdout ∧
    strContains ("Failed to open device: " ++ "no such device") "no such device" ∧
    (blinka_check [⟨0x04D8, 5⟩] (OpenResult.osError "no such device")).exitCode = 1 :=
  blinka_check_open_failure_os _ _ (by decide)

/-- C8: on every run at most one open call is made, and every open call
has the fixed arguments `(0x04D8, 0x00DD)`, whatever the product ids of
the enumerated records were. -/
theorem blinka_check_open_target (devices : List DeviceInfo) (openRes : OpenResult) :
    (blinka_check devices openRes).openCalls.length ≤ 1 ∧
    ∀ c ∈ (blinka_check devices openRes).openCalls, c = (0x04D8, 0x00DD) := by
  unfold blinka_check
  cases openRes <;> dsimp only <;> split <;> simp [ADAFRUIT_VENDOR_ID]

/-- C9: the prober is deterministic — two runs over the same enumeration
result and the same open outcome print the same stdout and exit with the
same code. -/
theorem blinka_check_deterministic (d₁ d₂ : List DeviceInfo) (o₁ o₂ : OpenResult)
    (hd : d₁ = d₂) (ho : o₁ = o₂) :
    (blinka_check d₁ o₁).stdout = (blinka_check d₂ o₂).stdout ∧
    (blinka_check d₁ o₁).exitCode = (blinka_check d₂ o₂).exitCode := by
  subst hd; subst ho; exact ⟨rfl, rfl⟩

/-- C9 witness. -/
theorem blinka_check_deterministic_witness :
    (blinka_check [] OpenResult.ok).stdout = (blinka_check [] OpenResult.ok).stdout ∧
    (blinka_check [] OpenResult.ok).exitCode = (blinka_check [] OpenResult.ok).exitCode :=
  blinka_check_deterministic [] [] OpenResult.ok OpenResult.ok rfl rfl

/-- C10: on every run, whatever the enumeration result and the open
outcome, the first line printed to stdout is the probing banner. -/
theorem blinka_check_banner_first (devices : List DeviceInfo) (openRes : OpenResult) :
    (blinka_check devices openRes).stdout.head? = some "Probing for Adafruit USB devices…" := by
  unfold blinka_check
  cases openRes <;> dsimp only <;> split <;> rfl

theorem blinkTrace_length (n : Nat) : (blinkTrace n).length = 6 * n := by
  induction n with
  | zero => rfl
  | succ n ih =>
    show (blinkTrace n ++ blinkIter).length = 6 * (n + 1)
    rw [List.length_append, ih]
    simp [blinkIter]
    omega

theorem altLabels_succ (m : Nat) :
    altLabels (m + 1) = altLabels m ++ [if m % 2 = 0 then "on..." else "off..."] := by
  unfold altLabels
  rw [List.range_succ, List.map_append]
  rfl

theorem printedLabels_blinkTrace (n : Nat) :
    printedLabels (blinkTrace n) = altLabels (2 * n) := by
  induction n with
  | zero => rfl
  | succ n ih =>
    show printedLabels (blinkTrace n ++ blinkIter) = altLabels (2 * (n + 1))
    rw [printedLabels, List.filterMap_append]
    have h2 : 2 * (n + 1) = (2 * n + 1) + 1 := by omega
    rw [h2, altLabels_succ, altLabels_succ]
    rw [← printedLabels, ih]
    have e1 : (2 * n) % 2 = 0 := by omega
    have e2 : (2 * n + 1) % 2 = 1 := by omega
    rw [e1, e2]
    simp [printedLabels, blinkIter, List.filterMap]

theorem blinkTrace_get_iter (n k : Nat) (j : Nat) (hk : k < n) (hj : j < 6) :
    (blinkTrace n).get? (6 * k + j) = blinkIter.get? j := by
  induction n with
  | zero => omega
  | succ n ih =>
    show (blinkTrace n ++ blinkIter).get? (6 * k + j) = _
    rcases Nat.lt_or_ge k n with h | h
    · rw [List.get?_append]
      · exact ih h
      · rw [blinkTrace_length]; omega
    · have hkn : k = n := by omega
      subst hkn
      rw [List.get?_append_right (by rw [blinkTrace_length]; omega)]
      rw [blinkTrace_length]
      congr 1
      omega

/-- C6: the labels printed by the toggler strictly alternate
`"on...", "off...", "on...", ...` starting with `"on..."` (and this holds
for every prefix of the trace, since the labels of a prefix are a prefix
of the labels); moreover in every iteration each label is printed
strictly before the corresponding pin-level transition: `"on..."` at
trace position `6k` before `led.value = True` at position `6k+1`, and
`"off..."` at `6k+3` before `led.value = False` at `6k+4`. -/
theorem blinka_blink_alternation (n k : Nat) :
    printedLabels (blinkTrace n) = altLabels (2 * n) ∧
    (∃ rest, printedLabels (blinkTrace n) =
      printedLabels ((blinkTrace n).take k) ++ rest) ∧
    (k < n →
      (blinkTrace n).get? (6 * k) = some (BlinkEvent.print "on...") ∧
      (blinkTrace n).get? (6 * k + 1) = some (BlinkEvent.setPin true) ∧
      (blinkTrace n).get? (6 * k + 3) = some (BlinkEvent.print "off...") ∧
      (blinkTrace n).get? (6 * k + 4) = some (BlinkEvent.setPin false)) := by
  refine ⟨printedLabels_blinkTrace n, ?_, ?_⟩
  · refine ⟨printedLabels ((blinkTrace n).drop k), ?_⟩
    rw [printedLabels, printedLabels, printedLabels, ← List.filterMap_append,
      List.take_append_drop]
  · intro hk
    have h0 := blinkTrace_get_iter n k 0 hk (by omega)
    have h1 := blinkTrace_get_iter n k 1 hk (by omega)
    have h3 := blinkTrace_get_iter n k 3 hk (by omega)
    have h4 := blinkTrace_get_iter n k 4 hk (by omega)
    rw [Nat.add_zero] at h0
    exact ⟨h0, h1, h3, h4⟩

/-- C6 witness: the first iteration of a two-iteration trace. -/
theorem blinka_blink_alternation_witness :
    printedLabels (blinkTrace 2) = altLabels (2 * 2) ∧
    (∃ rest, printedLabels (blinkTrace 2) =
      printedLabels ((blinkTrace 2).take 7) ++ rest) ∧
    ((blinkTrace 2).get? (6 * 1) = some (BlinkEvent.print "on...") ∧
      (blinkTrace 2).get? (6 * 1 + 1) = some (BlinkEvent.setPin true) ∧
      (blinkTrace 2).get? (6 * 1 + 3) = some (BlinkEvent.print "off...") ∧
      (blinkTrace 2).get? (6 * 1 + 4) = some (BlinkEvent.setPin false)) :=
  ⟨(blinka_blink_alternation 2 7).1, (blinka_blink_alternation 2 7).2.1,
    (blinka_blink_alternation 2 1).2.2 (by omega)⟩

theorem lexLE_cons_same (c : Char) (l₁ l₂ : List Char) :
    lexLE (c :: l₁) (c :: l₂) = lexLE l₁ l₂ := by
  show (if c < c then true else if c = c then lexLE l₁ l₂ else false) = lexLE l₁ l₂
  rw [if_neg (lt_irrefl c), if_pos rfl]

theorem lexLT_cons_same (c : Char) (l₁ l₂ : List Char) :
    lexLT (c :: l₁) (c :: l₂) = lexLT l₁ l₂ := by
  show (if c < c then true else if c = c then lexLT l₁ l₂ else false) = lexLT l₁ l₂
  rw [if_neg (lt_irrefl c), if_pos rfl]

theorem lexLE_refl (l : List Char) : lexLE l l = true := by
  induction l with
  | nil => rfl
  | cons c cs ih => rw [lexLE_cons_same]; exact ih

theorem lexLT_le (l₁ l₂ : List Char) (h : lexLT l₁ l₂ = true) : lexLE l₁ l₂ = true := by
  induction l₁ generalizing l₂ with
  | nil => cases l₂ <;> rfl
  | cons a as ih =>
    cases l₂ with
    | nil => exact absurd h (by simp [lexLT])
    | cons b bs =>
      show (if a < b then true else if a = b then lexLE as bs else false) = true
      rw [show lexLT (a :: as) (b :: bs) =
        (if a < b then true else if a = b then lexLT as bs else false) from rfl] at h
      by_cases hab : a < b
      · rw [if_pos hab]
      · rw [if_neg hab] at h ⊢
        by_cases heq : a = b
        · rw [if_pos heq] at h ⊢
          exact ih bs h
        · rw [if_neg heq] at h
          exact absurd h (by simp)

theorem lexLT_append {l₁ l₂ : List Char} (r₁ r₂ : List Char) (h : lexLT l₁ l₂ = true)
    (hlen : l₁.length = l₂.length) : lexLT (l₁ ++ r₁) (l₂ ++ r₂) = true := by
  induction l₁ generalizing l₂ with
  | nil =>
    cases l₂ with
    | nil => exact absurd h (by simp [lexLT])
    | cons b bs => simp at hlen
  | cons a as ih =>
    cases l₂ with
    | nil => simp at hlen
    | cons b bs =>
      rw [List.cons_append, List.cons_append]
      show (if a < b then true else if a = b then lexLT (as ++ r₁) (bs ++ r₂) else false) = true
      rw [show lexLT (a :: as) (b :: bs) =
        (if a < b then true else if a = b then lexLT as bs else false) from rfl] at h
      by_cases hab : a < b
      · rw [if_pos hab]
      · rw [if_neg hab] at h ⊢
        by_cases heq : a = b
        · rw [if_pos heq] at h ⊢
          exact ih h (by simpa using hlen)
        · rw [if_neg heq] at h
          exact absurd h (by simp)

theorem lexLT_append_same (l r₁ r₂ : List Char) (h : lexLT r₁ r₂ = true) :
    lexLT (l ++ r₁) (l ++ r₂) = true := by
  induction l with
  | nil => exact h
  | cons c cs ih =>
    rw [List.cons_append, List.cons_append, lexLT_cons_same]
    exact ih

theorem lexLE_append_same (l r₁ r₂ : List Char) (h : lexLE r₁ r₂ = true) :
    lexLE (l ++ r₁) (l ++ r₂) = true := by
  induction l with
  | nil => exact h
  | cons c cs ih =>
    rw [List.cons_append, List.cons_append, lexLE_cons_same]
    exact ih

theorem dig_length (w n : Nat) : (dig w n).length = w := by
  induction w generalizing n with
  | zero => rfl
  | succ w ih => simp [dig, ih]

theorem digitChar_lt {a b : Nat} (hab : a < b) (hb : b < 10) :
    digitChar a < digitChar b := by
  have ha : a < 10 := lt_trans hab hb
  interval_cases a <;> interval_cases b <;> decide

theorem isDigitCh_digitChar (n : Nat) : isDigitCh (digitChar (n % 10)) = true := by
  have h : n % 10 < 10 := Nat.mod_lt n (by norm_num)
  generalize hm : n % 10 = m at h
  interval_cases m <;> decide

theorem dig_lt {w a b : Nat} (hab : a < b) (hb : b < 10 ^ w) :
    lexLT (dig w a) (dig w b) = true := by
  induction w generalizing a b with
  | zero => rw [pow_zero] at hb; omega
  | succ w ih =>
    have hb10 : b / 10 < 10 ^ w := by
      have h1 : b < 10 ^ w * 10 := by rw [← pow_succ]; exact hb
      omega
    simp only [dig]
    rcases Nat.lt_or_ge (a / 10) (b / 10) with hq | hq
    · exact lexLT_append _ _ (ih hq hb10) (by rw [dig_length, dig_length])
    · have hq' : a / 10 = b / 10 :=
        Nat.le_antisymm (Nat.div_le_div_right (Nat.le_of_lt hab)) hq
      have hm : a % 10 < b % 10 := by omega
      rw [hq']
      apply lexLT_append_same
      show (if digitChar (a % 10) < digitChar (b % 10) then true
        else if digitChar (a % 10) = digitChar (b % 10) then lexLT [] [] else false) = true
      rw [if_pos (digitChar_lt hm (Nat.mod_lt b (by norm_num)))]

theorem dig_le {w a b : Nat} (hab : a ≤ b) (hb : b < 10 ^ w) :
    lexLE (dig w a) (dig w b) = true := by
  rcases Nat.eq_or_lt_of_le hab with rfl | h
  · exact lexLE_refl _
  · exact lexLT_le _ _ (dig_lt h hb)

theorem lexLE_dig_append {w a b : Nat} (r₁ r₂ : List Char) (hb : b < 10 ^ w)
    (h : a < b ∨ (a = b ∧ lexLE r₁ r₂ = true)) :
    lexLE (dig w a ++ r₁) (dig w b ++ r₂) = true := by
  rcases h with h | ⟨rfl, h⟩
  · exact lexLT_le _ _ (lexLT_append _ _ (dig_lt h hb) (by rw [dig_length, dig_length]))
  · exact lexLE_append_same _ _ _ h

theorem tsShape_formatTs (t : DateTime) : isTimestampStr (formatTs t) = true := by
  unfold isTimestampStr formatTs
  simp only [dig, List.nil_append, List.cons_append, List.append_assoc,
    List.singleton_append]
  simp only [tsShape, allDigits, List.all_cons, List.all_nil,
    isDigitCh_digitChar, Bool.and_true, Bool.true_and]
  simp

theorem formatTs_data_length (t : DateTime) : (formatTs t).data.length = 26 := by
  unfold formatTs
  show (dig 4 t.year ++ _).length = 26
  simp only [List.length_append, List.length_cons, dig_length]

theorem formatTs_mono {t u : DateTime} (hle : DateTime.le t u) (hu : u.Valid) :
    lexLE (formatTs t).data (formatTs u).data = true := by
  obtain ⟨-, hy, -, hmo, -, hd, hh, hmi, hs, hus⟩ := hu
  have p4 : (10 : Nat) ^ 4 = 10000 := by norm_num
  have p2 : (10 : Nat) ^ 2 = 100 := by norm_num
  have p6 : (10 : Nat) ^ 6 = 1000000 := by norm_num
  show lexLE (dig 4 t.year ++ _) (dig 4 u.year ++ _) = true
  rcases hle with h | ⟨e, hle⟩
  · exact lexLE_dig_append _ _ (by omega) (Or.inl h)
  refine lexLE_dig_append _ _ (by omega) (Or.inr ⟨e, ?_⟩)
  rw [lexLE_cons_same]
  rcases hle with h | ⟨e, hle⟩
  · exact lexLE_dig_append _ _ (by omega) (Or.inl h)
  refine lexLE_dig_append _ _ (by omega) (Or.inr ⟨e, ?_⟩)
  rw [lexLE_cons_same]
  rcases hle with h | ⟨e, hle⟩
  · exact lexLE_dig_append _ _ (by omega) (Or.inl h)
  refine lexLE_dig_append _ _ (by omega) (Or.inr ⟨e, ?_⟩)
  rw [lexLE_cons_same]
  rcases hle with h | ⟨e, hle⟩
  · exact lexLE_dig_append _ _ (by omega) (Or.inl h)
  refine lexLE_dig_append _ _ (by omega) (Or.inr ⟨e, ?_⟩)
  rw [lexLE_cons_same]
  rcases hle with h | ⟨e, hle⟩
  · exact lexLE_dig_append _ _ (by omega) (Or.inl h)
  refine lexLE_dig_append _ _ (by omega) (Or.inr ⟨e, ?_⟩)
  rw [lexLE_cons_same]
  rcases hle with h | ⟨e, hle⟩
  · exact lexLE_dig_append _ _ (by omega) (Or.inl h)
  refine lexLE_dig_append _ _ (by omega) (Or.inr ⟨e, ?_⟩)
  rw [lexLE_cons_same]
  exact dig_le hle (by omega)

/-- C5 counterexample: a concrete run of the poller never prints a
`"time;value"` line — the header the code prints is `"time;pressure"`
(line 12 of `lps25.py`), so the claimed header line appears zero times,
not exactly once. -/
theorem lps25_header_value_counterexample :
    (lps25Lines (fun _ => ⟨2024, 5, 6, 7, 8, 9, 10⟩) (fun _ => "1013.25") 1).count
        "time;value" = 0 ∧
    (lps25Lines (fun _ => ⟨2024, 5, 6, 7, 8, 9, 10⟩) (fun _ => "1013.25") 1).head? =
      some "time;pressure" := by
  constructor <;> decide

/-- C5 (amended): the header line `"time;pressure"` is printed exactly
once, as the first line, before any data line. -/
theorem lps25_header_once (clk : Nat → DateTime) (press : Nat → String) (n : Nat) :
    (lps25Lines clk press n).head? = some "time;pressure" ∧
    (lps25Lines clk press n).count "time;pressure" = 1 := by
  refine ⟨rfl, ?_⟩
  unfold lps25Lines
  rw [List.count_cons]
  have hz : (((List.range n).map fun i => formatTs (clk i) ++ ";" ++ press i).count
      "time;pressure") = 0 := by
    rw [List.count_eq_zero]
    intro hmem
    obtain ⟨i, -, heq⟩ := List.mem_map.mp hmem
    have hl := congrArg (fun s => s.data.length) heq
    simp only at hl
    rw [string_append_data, string_append_data, List.length_append,
      List.length_append, formatTs_data_length] at hl
    have h1 : (";" : String).data.length = 1 := rfl
    have h13 : ("time;pressure" : String).data.length = 13 := rfl
    rw [h1, h13] at hl
    omega
  rw [hz]
  simp

/-- C7: every line the poller emits after the header is
`<timestamp>;<numeric-reading>` with the timestamp in
`%Y-%m-%dT%H:%M:%S.%f` format (microsecond precision), and — the wall
clock being non-decreasing — the timestamp strings of consecutive data
lines are lexicographically non-decreasing. -/
theorem lps25_stream_format (clk : Nat → DateTime) (press : Nat → String) (n : Nat)
    (hvalid : ∀ i, (clk i).Valid) (hmono : ∀ i, DateTime.le (clk i) (clk (i + 1)))
    (hnum : ∀ i, isNumericStr (press i) = true) :
    (∀ line ∈ (lps25Lines clk press n).tail, matchesDataLine line) ∧
    (∀ i, i + 1 < n →
      (lps25Lines clk press n).get? (i + 1) = some (formatTs (clk i) ++ ";" ++ press i) ∧
      lexLE (formatTs (clk i)).data (formatTs (clk (i + 1))).data = true) := by
  constructor
  · intro line hline
    unfold lps25Lines at hline
    rw [List.tail_cons] at hline
    obtain ⟨i, -, rfl⟩ := List.mem_map.mp hline
    exact ⟨formatTs (clk i), press i, rfl, tsShape_formatTs _, hnum i⟩
  · intro i hi
    refine ⟨?_, formatTs_mono (hmono i) (hvalid (i + 1))⟩
    unfold lps25Lines
    rw [List.get?_cons_succ, List.get?_map, List.get?_range (by omega)]
    rfl

/-- C7 witness: a concrete two-iteration run with a constant clock. -/
theorem lps25_stream_format_witness :
    matchesDataLine (formatTs ⟨2024, 5, 6, 7, 8, 9, 10⟩ ++ ";" ++ "1013.25") ∧
    lexLE (formatTs ⟨2024, 5, 6, 7, 8, 9, 10⟩).data
      (formatTs ⟨2024, 5, 6, 7, 8, 9, 10⟩).data = true := by
  have hv : DateTime.Valid ⟨2024, 5, 6, 7, 8, 9, 10⟩ := by decide
  have hlc : DateTime.le ⟨2024, 5, 6, 7, 8, 9, 10⟩ ⟨2024, 5, 6, 7, 8, 9, 10⟩ := by decide
  have hn : isNumericStr "1013.25" = true := by decide
  have h := lps25_stream_format (fun _ => ⟨2024, 5, 6, 7, 8, 9, 10⟩)
    (fun _ => "1013.25") 2 (fun _ => hv) (fun _ => hlc) (fun _ => hn)
  refine ⟨h.1 _ ?_, (h.2 0 (by omega)).2⟩
  unfold lps25Lines
  rw [List.tail_cons]
  exact List.mem_map.mpr ⟨0, by simp, rfl⟩
